import Mathlib

/-!
Verification of the NeuralFeedback review-generation orchestrator.

This file shallowly embeds the review-generation pipeline of `src/app.py`
(trait-intensity scheduling, age resolution, the Gemini review generator
with its structured-JSON and free-text parse paths, the fallback persona
builder, the glows/grows summary aggregator, and the dispatcher tail of the
`/generate` route) together with `extract_rating_from_feedback` of
`src/neuralseek_client.py`, and proves the frozen claims about them.

Modelling conventions:
* Python `int` is `Int` (`Nat` where the source value is an index/count).
* The float intensity levels `0.9 / 1.0 / 1.1` are carried as exact
  rationals; the source never does arithmetic on them, it only stores,
  compares and looks them up.
* External LLM calls are abstracted as an `ApiOutcome` parameter: either the
  call raised, or it returned a text.  `json.loads` of that text is
  abstracted as an `Option ParsedDoc` parameter (`none` covering
  non-JSON output, JSON that is not an object, and the falsy empty object).
* `random.choice` / `random.randint` are modelled by seed-indexed draws:
  `choice` picks `pool[seed % len(pool)]`, `randint a b` returns
  `a + seed % (b - a + 1)` when `a ≤ b` and `none` (the `ValueError` raise)
  when `a > b`.  Theorems quantify over all seeds.
* Python string primitives (`lower`, `strip`, slicing, `split`) are
  re-implemented over `List Char` so that every definition evaluates inside
  the kernel; they agree with CPython on the ASCII texts involved.
-/

/-- Model of Python `str.lower()` (ASCII case folding). -/
def pyLower (s : String) : String :=
  String.mk (s.toList.map Char.toLower)

/-- Drop leading and trailing whitespace from a character list. -/
def stripChars (l : List Char) : List Char :=
  ((l.dropWhile Char.isWhitespace).reverse.dropWhile Char.isWhitespace).reverse

/-- Model of Python `str.strip()` with no arguments. -/
def pyStrip (s : String) : String :=
  String.mk (stripChars s.toList)

/-- Model of the Python slice `s[:n]` (first `n` characters). -/
def pyTake (s : String) (n : Nat) : String :=
  String.mk (s.toList.take n)

/-- Model of Python `s[n:]` (all but the first `n` characters). -/
def pyDrop (s : String) (n : Nat) : String :=
  String.mk (s.toList.drop n)

/-- Remove the last `n` characters of a string. -/
def pyDropEnd (s : String) (n : Nat) : String :=
  String.mk (s.toList.take (s.toList.length - n))

/-- Model of Python `s.startswith(pat)`. -/
def startsW (s pat : String) : Bool :=
  decide (pat.toList <+: s.toList)

/-- Model of Python `s.endswith(pat)`. -/
def endsW (s pat : String) : Bool :=
  decide (pat.toList <:+ s.toList)

/-- Substring test, the model of the Python `needle in hay` operator. -/
def containsSub (hay needle : String) : Bool :=
  decide (needle.toList <:+: hay.toList)

/-- Model of Python `str.capitalize()`: first character uppercased, the rest
lowercased. -/
def pyCapitalize (s : String) : String :=
  match s.toList with
  | [] => ""
  | c :: cs => String.mk (c.toUpper :: cs.map Char.toLower)

/-- Split a character list at newline characters (Python `split("\n")`). -/
def splitLinesAux (cur : List Char) : List Char → List (List Char)
  | [] => [cur.reverse]
  | c :: cs =>
    if c = '\n' then cur.reverse :: splitLinesAux [] cs
    else splitLinesAux (c :: cur) cs

/-- Model of Python `s.split("\n")`. -/
def splitLines (s : String) : List String :=
  (splitLinesAux [] s.toList).map String.mk

/-- Model of `random.choice(pool)`: a seed-indexed draw from the pool. -/
def pick (pool : List String) (seed : Nat) : String :=
  pool.getD (seed % pool.length) ""

/-- Value that `random.randint a b` yields for a given seed when `a ≤ b`. -/
def randintVal (a b : Int) (seed : Nat) : Int :=
  a + ((seed % (b - a + 1).toNat : Nat) : Int)

/-- Model of `random.randint(a, b)`: `none` models the `ValueError` raised
when `a > b` (empty range). -/
def randint (a b : Int) (seed : Nat) : Option Int :=
  if a ≤ b then some (randintVal a b seed) else none

theorem randint_mem (a b : Int) (s : Nat) (h : a ≤ b) :
    randint a b s = some (randintVal a b s) ∧
      a ≤ randintVal a b s ∧ randintVal a b s ≤ b := by
  refine ⟨by simp [randint, h], ?_, ?_⟩
  · have : (0 : Int) ≤ ((s % (b - a + 1).toNat : Nat) : Int) := by positivity
    simp only [randintVal]; omega
  · have h1 : (b - a + 1).toNat > 0 := by omega
    have h2 : (s % (b - a + 1).toNat : Nat) < (b - a + 1).toNat :=
      Nat.mod_lt _ h1
    have h3 : (((b - a + 1).toNat : Nat) : Int) = b - a + 1 :=
      Int.toNat_of_nonneg (by omega)
    simp only [randintVal]; omega

/- ------------------------------------------------------------------ -/
/- src/neuralseek_client.py : extract_rating_from_feedback            -/
/- ------------------------------------------------------------------ -/

/-- Positive keyword list of the NeuralSeek rating heuristic. -/
def positive_words : List String :=
  ["excellent", "great", "outstanding", "strong", "promising", "innovative"]

/-- Negative keyword list of the NeuralSeek rating heuristic. -/
def negative_words : List String :=
  ["weak", "unclear", "questionable", "missing", "lacks", "needs improvement"]

/-- Explicit 5-star mention test, on the lowercased feedback. -/
def mention5 (fl : String) : Bool :=
  containsSub fl "5 star" || containsSub fl "five star" || containsSub fl "5/5"

/-- Explicit 4-star mention test, on the lowercased feedback. -/
def mention4 (fl : String) : Bool :=
  containsSub fl "4 star" || containsSub fl "four star" || containsSub fl "4/5"

/-- Explicit 3-star mention test, on the lowercased feedback. -/
def mention3 (fl : String) : Bool :=
  containsSub fl "3 star" || containsSub fl "three star" || containsSub fl "3/5"

/-- Explicit 2-star mention test, on the lowercased feedback. -/
def mention2 (fl : String) : Bool :=
  containsSub fl "2 star" || containsSub fl "two star" || containsSub fl "2/5"

/-- Explicit 1-star mention test, on the lowercased feedback. -/
def mention1 (fl : String) : Bool :=
  containsSub fl "1 star" || containsSub fl "one star" || containsSub fl "1/5"

/-- Count of listed keywords occurring in the lowercased feedback. -/
def keywordCount (words : List String) (fl : String) : Nat :=
  (words.filter (fun w => containsSub fl w)).length

/-- Embedding of `extract_rating_from_feedback` (src/neuralseek_client.py,
lines 181-216): explicit star mentions first, then the
positive/negative keyword-count heuristic. -/
def extract_rating_from_feedback (feedback : String) : Nat :=
  let fl := pyLower feedback
  if mention5 fl then 5
  else if mention4 fl then 4
  else if mention3 fl then 3
  else if mention2 fl then 2
  else if mention1 fl then 1
  else
    let positive_count := keywordCount positive_words fl
    let negative_count := keywordCount negative_words fl
    if positive_count > negative_count + 2 then 5
    else if positive_count > negative_count then 4
    else if positive_count = negative_count then 3
    else if negative_count > positive_count then 2
    else 1

/-- True when the feedback carries no explicit star mention at all. -/
def noExplicitMention (fl : String) : Bool :=
  !(mention5 fl || mention4 fl || mention3 fl || mention2 fl || mention1 fl)

/-- C10: extract_rating_from_feedback always returns an integer in [1,5];
an explicit star mention maps to its value (under the source precedence
5,4,3,2,1), and without any explicit mention the keyword trichotomy returns
5, 4, 3 or 2 — the final branch returning 1 is unreachable, so the result
is at least 2 there. -/
theorem claim_C10_rating_always_valid (s : String) :
    (1 ≤ extract_rating_from_feedback s ∧ extract_rating_from_feedback s ≤ 5) ∧
    (mention5 (pyLower s) = true → extract_rating_from_feedback s = 5) ∧
    (mention5 (pyLower s) = false → mention4 (pyLower s) = true →
      extract_rating_from_feedback s = 4) ∧
    (mention5 (pyLower s) = false → mention4 (pyLower s) = false →
      mention3 (pyLower s) = true → extract_rating_from_feedback s = 3) ∧
    (mention5 (pyLower s) = false → mention4 (pyLower s) = false →
      mention3 (pyLower s) = false → mention2 (pyLower s) = true →
      extract_rating_from_feedback s = 2) ∧
    (mention5 (pyLower s) = false → mention4 (pyLower s) = false →
      mention3 (pyLower s) = false → mention2 (pyLower s) = false →
      mention1 (pyLower s) = true → extract_rating_from_feedback s = 1) ∧
    (noExplicitMention (pyLower s) = true →
      2 ≤ extract_rating_from_feedback s ∧ extract_rating_from_feedback s ≠ 1) := by
  simp only [extract_rating_from_feedback, noExplicitMention]
  constructor
  · split_ifs <;> omega
  refine ⟨?_, ?_, ?_, ?_, ?_, ?_⟩ <;> intros <;> simp_all <;> split_ifs <;> omega

/-- C10 witness: the theorem applied to a concrete feedback string with no
explicit mention and two positive keywords. -/
theorem claim_C10_witness :
    extract_rating_from_feedback "A great and innovative concept." = 4 ∧
    2 ≤ extract_rating_from_feedback "A great and innovative concept." := by
  have h := claim_C10_rating_always_valid "A great and innovative concept."
  exact ⟨by decide, (h.2.2.2.2.2.2 (by decide)).1⟩

/- ------------------------------------------------------------------ -/
/- src/app.py : trait-intensity scheduling in the /generate route     -/
/- ------------------------------------------------------------------ -/

/-- The rational 9/10, written as an explicit normal form so that it
evaluates inside the kernel. -/
def q09 : ℚ := ⟨9, 10, by norm_num, by norm_num⟩

/-- The rational 11/10, written as an explicit normal form so that it
evaluates inside the kernel. -/
def q11 : ℚ := ⟨11, 10, by norm_num, by norm_num⟩

theorem q09_eq : q09 = 9 / 10 := by
  unfold q09
  rw [Rat.mk'_eq_divInt]
  norm_num [Rat.divInt_eq_div]

theorem q11_eq : q11 = 11 / 10 := by
  unfold q11
  rw [Rat.mk'_eq_divInt]
  norm_num [Rat.divInt_eq_div]

/-- Embedding of `INTENSITY_LEVELS = [0.9, 1.0, 1.1]` (src/app.py line 82),
as exact rationals. -/
def INTENSITY_LEVELS : List ℚ := [q09, 1, q11]

/-- Lookup in a Python dict built by a comprehension, represented as the
insertion-ordered key/value list: on duplicate keys the last insertion
wins, absent keys give the default (`dict.get(k, default)`). -/
def dictGet (d : List (String × ℚ)) (k : String) (dflt : ℚ) : ℚ :=
  match (d.filter (fun p => p.1 = k)).getLast? with
  | some p => p.2
  | none => dflt

/-- Embedding of the intensity dict built for task index `i` (src/app.py
lines 665-668): trait at position `j` is paired with
`INTENSITY_LEVELS[(i + j) % len(INTENSITY_LEVELS)]`. -/
def buildIntensities (i : Nat) (chars : List String) : List (String × ℚ) :=
  (List.range chars.length).map
    (fun j => (chars.getD j "", INTENSITY_LEVELS.getD ((i + j) % INTENSITY_LEVELS.length) 1))

/-- One per-persona task specification of a `/generate` batch
(src/app.py lines 669-681). -/
structure PersonaTask where
  id : Nat
  prompt : String
  traits : List String
  intensities : List (String × ℚ)
  age_min : Option Int
  age_max : Option Int
  gender : Option String
  location : Option String
  document_text : Option String

/-- Embedding of the task-list construction of the `/generate` route
(src/app.py lines 663-681). -/
def buildTasks (text : String) (num_reviews : Nat) (chars : List String)
    (age_min age_max : Option Int) (gender location document_text : Option String) :
    List PersonaTask :=
  (List.range num_reviews).map (fun i =>
    { id := i + 1, prompt := text, traits := chars,
      intensities := buildIntensities i chars,
      age_min := age_min, age_max := age_max,
      gender := gender, location := location, document_text := document_text })

theorem range_filter_eq_single (n j : Nat) (hj : j < n) :
    (List.range n).filter (fun x => decide (x = j)) = [j] := by
  induction n with
  | zero => omega
  | succ n ih =>
    rw [List.range_succ, List.filter_append]
    by_cases h : j < n
    · rw [ih h]
      have : (List.filter (fun x => decide (x = j)) [n]) = [] := by
        simp; omega
      rw [this]
      simp
    · have hj2 : j = n := by omega
      subst hj2
      have h1 : (List.range j).filter (fun x => decide (x = j)) = [] := by
        rw [List.filter_eq_nil_iff]
        intro a ha
        simp only [List.mem_range] at ha
        simp; omega
      rw [h1]
      simp

/-- C5: the trait at 0-based index j of the task at 0-based index i is
assigned intensity `INTENSITY_LEVELS[(i + j) mod 3]` (looked up through the
task dict, for a duplicate-free trait list), and the builder/scheduler is a
pure function, so repeated runs over the same inputs produce identical
trait_intensities assignments. -/
theorem claim_C5_intensity_schedule (i : Nat) (chars : List String)
    (hnd : chars.Nodup) (j : Nat) (hj : j < chars.length) :
    dictGet (buildIntensities i chars) (chars.get ⟨j, hj⟩) 1 =
      INTENSITY_LEVELS.getD ((i + j) % 3) 1 ∧
    (∀ text n amin amax g loc doc,
      buildTasks text n chars amin amax g loc doc =
        buildTasks text n chars amin amax g loc doc) := by
  refine ⟨?_, fun _ _ _ _ _ _ _ => rfl⟩
  unfold dictGet buildIntensities
  rw [List.filter_map]
  have hcongr :
      (List.range chars.length).filter
        ((fun p : String × ℚ => decide (p.1 = chars.get ⟨j, hj⟩)) ∘
          (fun k => (chars.getD k "",
            INTENSITY_LEVELS.getD ((i + k) % INTENSITY_LEVELS.length) 1))) =
      (List.range chars.length).filter (fun x => decide (x = j)) := by
    apply List.filter_congr
    intro x hx
    simp only [List.mem_range] at hx
    simp only [Function.comp_apply]
    rw [List.getD_eq_getElem chars "" hx]
    simp only [List.get_eq_getElem]
    simp [hnd.getElem_inj_iff]
  rw [hcongr, range_filter_eq_single chars.length j hj]
  have hlen : INTENSITY_LEVELS.length = 3 := rfl
  simp [hlen]

theorem intensity_levels_distinct (a b : Nat) (ha : a < 3) (hb : b < 3) (hab : a ≠ b) :
    INTENSITY_LEVELS.getD a 1 ≠ INTENSITY_LEVELS.getD b 1 := by
  interval_cases a <;> interval_cases b <;> first
  | exact absurd rfl hab
  | decide

/-- C6 counterexample: in a batch of 4 tasks (4 is not a multiple of 3) over
the fixed trait list ["analytical"], the distinct tasks at indices 0 and 3
receive identical trait-intensity assignments, refuting the claim that
assignments are distinct whenever count is not a multiple of 3. -/
theorem claim_C6_counterexample :
    (0 : Nat) ≠ 3 ∧ 0 < 4 ∧ 3 < 4 ∧ 4 % 3 ≠ 0 ∧
    buildIntensities 0 ["analytical"] = buildIntensities 3 ["analytical"] := by
  exact ⟨by decide, by decide, by decide, by decide, rfl⟩

/-- C6 amended: over a fixed non-empty trait ordering, the tasks of a batch
of size count receive pairwise distinct trait-intensity assignments exactly
when count ≤ 3 (the (i + j) mod 3 cycling repeats with period 3, so any
batch of four or more tasks contains a collision, whether or not count is a
multiple of 3). -/
theorem claim_C6_amended (count : Nat) (chars : List String) (hne : chars ≠ []) :
    (∀ i1 i2, i1 < count → i2 < count → i1 ≠ i2 →
      buildIntensities i1 chars ≠ buildIntensities i2 chars) ↔ count ≤ 3 := by
  have hlen : INTENSITY_LEVELS.length = 3 := rfl
  constructor
  · intro h
    by_contra hc
    push_neg at hc
    have heq : buildIntensities 0 chars = buildIntensities 3 chars := by
      unfold buildIntensities
      apply List.map_congr_left
      intro j hj
      rw [hlen]
      have h03 : (0 + j) % 3 = (3 + j) % 3 := by omega
      rw [h03]
    exact h 0 3 (by omega) (by omega) (by omega) heq
  · intro hle i1 i2 h1 h2 h12 heq
    rcases chars with _ | ⟨c, cs⟩
    · exact hne rfl
    · unfold buildIntensities at heq
      simp only [List.length_cons, List.range_succ_eq_map, List.map_cons] at heq
      rw [List.cons.injEq] at heq
      have hsnd := congrArg Prod.snd heq.1
      simp only at hsnd
      have hm1 : (i1 + 0) % INTENSITY_LEVELS.length = i1 := by
        rw [hlen]; omega
      have hm2 : (i2 + 0) % INTENSITY_LEVELS.length = i2 := by
        rw [hlen]; omega
      rw [hm1, hm2] at hsnd
      exact intensity_levels_distinct i1 i2 (by omega) (by omega) h12 hsnd

/-- C5 witness: the scheduling theorem applied to task index 1 and the
second trait of a concrete duplicate-free trait list. -/
theorem claim_C5_witness :
    dictGet (buildIntensities 1 ["analytical", "creative"]) "creative" 1 =
      INTENSITY_LEVELS.getD 2 1 := by
  have h := (claim_C5_intensity_schedule 1 ["analytical", "creative"]
    (by decide) 1 (by decide)).1
  exact h

/-- C6 witness: the amended theorem applied to the batch size 2 over the
trait list ["analytical"]: tasks 0 and 1 get distinct assignments. -/
theorem claim_C6_witness :
    buildIntensities 0 ["analytical"] ≠ buildIntensities 1 ["analytical"] := by
  exact (claim_C6_amended 2 ["analytical"] (by simp)).mpr (by omega)
    0 1 (by omega) (by omega) (by omega)

/- ------------------------------------------------------------------ -/
/- src/app.py : parse_int and age resolution in generate_review       -/
/- ------------------------------------------------------------------ -/

/-- A Python scalar as it reaches `parse_int`: None, an int, or a string.
Other runtime types also fall to None through the except clause. -/
inductive PyVal where
  | none : PyVal
  | int (n : Int) : PyVal
  | str (s : String) : PyVal
deriving DecidableEq

/-- Digit-string to number, for the model of Python `int(str)`. -/
def digitsVal (l : List Char) : Nat :=
  l.foldl (fun a c => a * 10 + (c.toNat - 48)) 0

/-- Model of Python `int(s)` on a stripped string: an optional single sign
followed by at least one ASCII digit; anything else raises, which
`parse_int` turns into None. -/
def strToInt (t : String) : Option Int :=
  match t.toList with
  | [] => Option.none
  | '+' :: rest =>
    if rest ≠ [] ∧ rest.all Char.isDigit then some (Int.ofNat (digitsVal rest))
    else Option.none
  | '-' :: rest =>
    if rest ≠ [] ∧ rest.all Char.isDigit then some (-(Int.ofNat (digitsVal rest)))
    else Option.none
  | l =>
    if l.all Char.isDigit then some (Int.ofNat (digitsVal l)) else Option.none

/-- Embedding of `parse_int` (src/app.py lines 107-119): None stays None,
ints pass through, strings are stripped and parsed, failures give None. -/
def parse_int : PyVal → Option Int
  | .none => Option.none
  | .int n => some n
  | .str s =>
    let t := pyStrip s
    if t = "" then Option.none else strToInt t

/-- Swap of inverted age bounds (src/app.py lines 236-237): applied only
when both bounds are present. -/
def swappedBounds (amin amax : Option Int) : Option Int × Option Int :=
  match amin, amax with
  | some lo, some hi => if lo > hi then (some hi, some lo) else (some lo, some hi)
  | a, b => (a, b)

/-- Embedding of the age-resolution chain of `generate_review` (src/app.py
lines 233-244): both bounds → uniform in the (possibly swapped) range;
only a lower bound → randint(bound, 100); only an upper bound →
randint(18, bound); neither → randint(22, 65).  `none` models the
`ValueError` that `random.randint` raises on an empty range, which
propagates out of `generate_review` (the try block starts later). -/
def resolveAge (amin amax : Option Int) (seed : Nat) : Option Int :=
  match amin, amax with
  | some lo, some hi =>
    let p := swappedBounds (some lo) (some hi)
    match p.1, p.2 with
    | some lo2, some hi2 => randint lo2 hi2 seed
    | _, _ => Option.none
  | some lo, Option.none => randint lo 100 seed
  | Option.none, some hi => randint 18 hi seed
  | Option.none, Option.none => randint 22 65 seed

/-- C8 counterexample: with only a lower bound of 150 (and no upper bound),
`random.randint(150, 100)` raises ValueError instead of sampling, so no age
at all is produced — the claim that every call yields an age in
[bound, 100] fails (that interval is empty). -/
theorem claim_C8_counterexample :
    resolveAge (some 150) Option.none 0 = Option.none ∧
    ¬∃ a : Int, resolveAge (some 150) Option.none 0 = some a ∧
      150 ≤ a ∧ a ≤ 100 := by
  refine ⟨by decide, ?_⟩
  rintro ⟨a, ha, _, _⟩
  rw [show resolveAge (some 150) Option.none 0 = Option.none from by decide] at ha
  exact Option.noConfusion ha

/-- C8 amended: the sampled age lies in [min,max] when both bounds are
given (after swapping if inverted, and a sample always exists), in
[bound,100] when only a lower bound ≤ 100 is given, in [18,bound] when only
an upper bound ≥ 18 is given, and in [22,65] when neither is given; a sole
lower bound above 100 (or a sole upper bound below 18) instead makes the
sampler raise, producing no age. -/
theorem claim_C8_age_in_bounds :
    (∀ (lo hi : Int) (s : Nat), ∃ a : Int,
      resolveAge (some lo) (some hi) s = some a ∧ min lo hi ≤ a ∧ a ≤ max lo hi) ∧
    (∀ (lo : Int) (s : Nat), lo ≤ 100 → ∃ a : Int,
      resolveAge (some lo) Option.none s = some a ∧ lo ≤ a ∧ a ≤ 100) ∧
    (∀ (hi : Int) (s : Nat), 18 ≤ hi → ∃ a : Int,
      resolveAge Option.none (some hi) s = some a ∧ 18 ≤ a ∧ a ≤ hi) ∧
    (∀ (s : Nat), ∃ a : Int,
      resolveAge Option.none Option.none s = some a ∧ 22 ≤ a ∧ a ≤ 65) := by
  refine ⟨?_, ?_, ?_, ?_⟩
  · intro lo hi s
    by_cases h : lo > hi
    · obtain ⟨h1, h2, h3⟩ := randint_mem hi lo s (by omega)
      refine ⟨randintVal hi lo s, ?_, by omega, by omega⟩
      simp [resolveAge, swappedBounds, h, h1]
    · obtain ⟨h1, h2, h3⟩ := randint_mem lo hi s (by omega)
      refine ⟨randintVal lo hi s, ?_, by omega, by omega⟩
      simp [resolveAge, swappedBounds, h, h1]
  · intro lo s h
    obtain ⟨h1, h2, h3⟩ := randint_mem lo 100 s (by omega)
    exact ⟨randintVal lo 100 s, by simp [resolveAge, h1], h2, h3⟩
  · intro hi s h
    obtain ⟨h1, h2, h3⟩ := randint_mem 18 hi s (by omega)
    exact ⟨randintVal 18 hi s, by simp [resolveAge, h1], h2, h3⟩
  · intro s
    obtain ⟨h1, h2, h3⟩ := randint_mem 22 65 s (by omega)
    exact ⟨randintVal 22 65 s, by simp [resolveAge, h1], h2, h3⟩

/-- C8 witness: inverted bounds ageMin=50, ageMax=20 still produce an age
inside [20,50] (the bounds are swapped before sampling), instantiated at
seed 7. -/
theorem claim_C8_witness :
    ∃ a : Int, resolveAge (some 50) (some 20) 7 = some a ∧ 20 ≤ a ∧ a ≤ 50 := by
  obtain ⟨a, ha, h1, h2⟩ := claim_C8_age_in_bounds.1 50 20 7
  exact ⟨a, ha, by simpa using h1, by simpa using h2⟩

/- ------------------------------------------------------------------ -/
/- src/app.py : the LLM review generator (generate_review)            -/
/- ------------------------------------------------------------------ -/

/-- Embedding of the FIRST_NAMES pool (src/app.py lines 179-185). -/
def FIRST_NAMES : List String :=
  ["Alex", "Jordan", "Taylor", "Morgan", "Casey", "Riley", "Avery", "Quinn",
   "Sage", "River", "Phoenix", "Dakota", "Cameron", "Skyler", "Rowan", "Harper",
   "Finley", "Emerson", "Reese", "Parker", "Blake", "Kendall", "Hayden", "Peyton",
   "Drew", "Logan", "Charlie", "Jamie", "Jessie", "Micah", "Adrian", "Ash",
   "Sam", "Kai", "Ellis", "Elliot", "Aubrey", "Bailey", "Brook", "Dylan"]

/-- Embedding of the LAST_NAMES pool (src/app.py lines 187-193). -/
def LAST_NAMES : List String :=
  ["Smith", "Johnson", "Williams", "Brown", "Jones", "Garcia", "Miller", "Davis",
   "Rodriguez", "Martinez", "Hernandez", "Lopez", "Gonzalez", "Wilson", "Anderson",
   "Thomas", "Taylor", "Moore", "Jackson", "Martin", "Lee", "Perez", "Thompson",
   "White", "Harris", "Sanchez", "Clark", "Ramirez", "Lewis", "Robinson", "Walker",
   "Young", "Allen", "King", "Wright", "Scott", "Torres", "Nguyen", "Hill", "Flores"]

/-- Embedding of the `intensity_labels` dict lookup with default
"moderately" (src/app.py lines 222-226). -/
def intensityLabel (v : ℚ) : String :=
  if v = q09 then "somewhat"
  else if v = 1 then "moderately"
  else if v = q11 then "very"
  else "moderately"

/-- Configuration state of the module: whether the google.generativeai
module loaded and whether GEMINI_API_KEY is set. -/
structure GenConfig where
  genaiLoaded : Bool
  apiKeyPresent : Bool
deriving DecidableEq

/-- Outcome of one call to the external text-generation API: the call
raised, or it returned a (possibly empty) text. -/
inductive ApiOutcome where
  | raised (msg : String)
  | ok (text : String)
deriving DecidableEq

/-- Seeds for the random draws made inside one generate_review call. -/
structure RandSrc where
  ageSeed : Nat
  firstSeed : Nat
  lastSeed : Nat
deriving DecidableEq

/-- A string-typed leaf of the parsed JSON object, as the handler consumes
it through `(leaf or ...).strip()` chains: `none` is a missing key, None,
or any falsy value (all of which the `or` chain replaces), `str` is a
string value (the empty string is falsy), and `nonStr` is a truthy
non-string value — JSON numbers, objects or arrays — on which the
subsequent `.strip()` raises AttributeError inside the try block. -/
inductive PyStr where
  | none : PyStr
  | str (s : String) : PyStr
  | nonStr : PyStr
deriving DecidableEq

/-- The `persona` object of a structured Gemini reply, after json.loads;
string-consumed fields are `PyStr`, the age and rating fields pass through
`parse_int` and are kept as `PyVal`, `traits` is `none` when the key is
missing or its value is not a list, and `motivations` is carried opaquely
into the metadata with no attribute access (so `Option String` loses no
control flow). -/
structure PersonaInfo where
  name : PyStr := PyStr.none
  age : PyVal := PyVal.none
  gender : PyStr := PyStr.none
  location : PyStr := PyStr.none
  profession : PyStr := PyStr.none
  tone : PyStr := PyStr.none
  descriptor : PyStr := PyStr.none
  summary : PyStr := PyStr.none
  traits : Option (List String) := Option.none
  motivations : Option String := Option.none
deriving DecidableEq

/-- The `review` object of a structured Gemini reply, after json.loads. -/
structure ReviewInfo where
  text : PyStr := PyStr.none
  rating : PyVal := PyVal.none
  summary : PyStr := PyStr.none
deriving DecidableEq

/-- A dict-valued field of the parsed JSON object: `dict` is the expected
object shape (`parsed.get(key, \x7b\x7d) or \x7b\x7d` maps a missing or
falsy value to the empty dict, i.e. `dict` of all-default fields), while
`nonDict` is a truthy non-dict value, on which the first `.get` attribute
access raises AttributeError inside the try block. -/
inductive PyField (α : Type) where
  | dict (a : α)
  | nonDict
deriving DecidableEq

/-- The result of `json.loads` on the cleaned Gemini output when it is a
dict; non-JSON output, non-dict JSON and the falsy empty dict are all
represented by `Option.none` at the use site. -/
structure ParsedDoc where
  persona : PyField PersonaInfo := PyField.dict {}
  review : PyField ReviewInfo := PyField.dict {}
deriving DecidableEq

/-- Placeholder for the runtime-generated AttributeError message text
(it depends on the offending Python type, so it is abstracted). -/
def attributeErrorMsg : String := "AttributeError"

/-- The metadata record attached to one generated review.  Keys that a
given path does not write (motivations / review_summary on the free-text
path) are represented as `none`. -/
structure Metadata where
  persona_name : String
  persona_descriptor : String
  characteristics : List String
  characteristic_intensities : List (String × ℚ)
  sentiment_rating : Int
  personality_description : String
  age_range : Option String
  age : Option Int
  gender : Option String
  location : Option String
  profession : Option String
  tone : Option String
  motivations : Option String
  traits_summary : String
  source_documents_used : Bool
  review_summary : Option String
deriving DecidableEq

/-- A successful generate_review result: review text plus metadata. -/
structure ReviewVal where
  text : String
  metadata : Metadata
deriving DecidableEq

/-- Result of one generate_review call: an uncaught exception escaping the
function, an error result `(None, message)`, or a review. -/
inductive GenOutcome where
  | exn (msg : String)
  | err (msg : String)
  | success (rv : ReviewVal)
deriving DecidableEq

/-- Python `a or b` on JSON leaves: a truthy `a` (a non-empty string or a
truthy non-string) wins, a falsy `a` falls through to `b`. -/
def orPy (a b : PyStr) : PyStr :=
  match a with
  | PyStr.nonStr => PyStr.nonStr
  | PyStr.none => b
  | PyStr.str s => if s = "" then b else PyStr.str s

/-- An optional plain string (such as the gender/location arguments of
generate_review) as a JSON-leaf value; it is never a non-string. -/
def optToPyStr : Option String → PyStr
  | some s => PyStr.str s
  | Option.none => PyStr.none

/-- Python `(v or "").strip()` on a JSON leaf: `none` models the
AttributeError raised when `v` is a truthy non-string. -/
def stripGet : PyStr → Option String
  | PyStr.none => some ""
  | PyStr.str s => some (pyStrip s)
  | PyStr.nonStr => Option.none

/-- Python `x or None` for an optional string. -/
def pyOrNone (a : Option String) : Option String :=
  match a with
  | some s => if s = "" then Option.none else some s
  | Option.none => Option.none

/-- Python `bool(document_text and document_text.strip())`. -/
def docUsed (document_text : Option String) : Bool :=
  match document_text with
  | some d => pyStrip d ≠ ""
  | Option.none => false

/-- Case-insensitive prefix test of a lowercase pattern against a
character list. -/
def isPrefCI : List Char → List Char → Bool
  | [], _ => true
  | _ :: _, [] => false
  | p :: ps, c :: cs => p = c.toLower && isPrefCI ps cs

/-- Scan for the first occurrence of the regex `RATING:\s*(\d+)`
(case-insensitive) and return the matched digit group
(src/app.py line 317). -/
def findRatingAux : List Char → Option Nat
  | [] => Option.none
  | c :: cs =>
    if isPrefCI "rating:".toList (c :: cs) then
      let rest := ((c :: cs).drop 7).dropWhile Char.isWhitespace
      let ds := rest.takeWhile Char.isDigit
      if ds ≠ [] then some (digitsVal ds) else findRatingAux cs
    else findRatingAux cs

/-- Wrapper of findRatingAux on strings. -/
def findRating (s : String) : Option Nat :=
  findRatingAux s.toList

/-- Model of `re.sub(r"\s*RATING:\s*\d+\s*$", "", raw_text)`
(src/app.py line 320): strip a trailing RATING line when present. -/
def dropRatingSuffix (s : String) : String :=
  let r := s.toList.reverse
  let r1 := r.dropWhile Char.isWhitespace
  let ds := r1.takeWhile Char.isDigit
  let r2 := r1.dropWhile Char.isDigit
  if ds = [] then s
  else
    let r3 := r2.dropWhile Char.isWhitespace
    if isPrefCI ":gnitar".toList r3 then
      String.mk (((r3.drop 7).dropWhile Char.isWhitespace).reverse)
    else s

/-- Model of the Markdown code-fence stripping applied to the raw Gemini
output (src/app.py lines 358-361). -/
def stripFences (s : String) : String :=
  if startsW s "```" then
    let afterTicks := pyDrop s 3
    let s1 := pyStrip (if pyLower (pyTake afterTicks 4) = "json"
      then pyDrop afterTicks 4 else afterTicks)
    pyStrip (if endsW s1 "```" then pyDropEnd s1 3 else s1)
  else s

/-- Embedding of the inner `build_metadata_from_text` closure of
generate_review (src/app.py lines 315-351): fallback parser used when no
structured JSON is available.  The closure context (trait list, intensity
dict, personality summary, swapped age bounds, resolved age, demographic
inputs, random seeds) is passed explicitly. -/
def build_metadata_from_text
    (selected_characteristics : List String)
    (characteristic_intensities : List (String × ℚ))
    (personality_summary : String)
    (age_min_val age_max_val : Option Int)
    (generated_age : Int)
    (gender location document_text : Option String)
    (rand : RandSrc)
    (raw_text : String) : String × Metadata :=
  let rating0 : Int := match findRating raw_text with
    | some n => Int.ofNat n
    | Option.none => 5
  let rating := max 1 (min 10 rating0)
  let review_text0 := pyStrip (dropRatingSuffix raw_text)
  let review_text := if review_text0 = "" then "No feedback received." else review_text0
  let first_name := pick FIRST_NAMES rand.firstSeed
  let last_name := pick LAST_NAMES rand.lastSeed
  let persona_name0 := first_name ++ " " ++ last_name
  let persona_name := if generated_age ≠ 0
    then persona_name0 ++ ", " ++ toString generated_age
    else persona_name0
  let descriptor := pyCapitalize (pyStrip (personality_summary ++ " customer persona"))
  (review_text,
   { persona_name := persona_name,
     persona_descriptor := descriptor,
     characteristics := selected_characteristics,
     characteristic_intensities := characteristic_intensities,
     sentiment_rating := rating,
     personality_description := descriptor,
     age_range := match age_min_val, age_max_val with
       | some lo, some hi => some (toString lo ++ "-" ++ toString hi)
       | _, _ => Option.none,
     age := some generated_age,
     gender := pyOrNone gender,
     location := pyOrNone location,
     tone := Option.none,
     profession := Option.none,
     motivations := Option.none,
     traits_summary := personality_summary,
     source_documents_used := docUsed document_text,
     review_summary := Option.none })

/-- The ReviewVal built on the structured-JSON path of generate_review
(src/app.py lines 377-431), factored out of the embedding below.  `bounds`
is the swapped age-bound pair; `review_text`, `persona_name0` and the
remaining string arguments are the results of the handler's already
performed `(... or ...).strip()` extractions (each of which would have
raised — and aborted this path — on a truthy non-string leaf). -/
def structuredReview (selected_characteristics : List String)
    (characteristic_intensities : List (String × ℚ))
    (personality_summary : String) (bounds : Option Int × Option Int)
    (generated_age : Int) (document_text : Option String)
    (rand : RandSrc) (pi : PersonaInfo) (ri : ReviewInfo)
    (review_text persona_name0 gender1 location1 profession1 tone1 pd0 rs0 : String) :
    ReviewVal :=
  let rating_value := max 1 (min 10 ((parse_int ri.rating).getD 5))
  let persona_name1 := if persona_name0 = ""
    then pick FIRST_NAMES rand.firstSeed ++ " " ++ pick LAST_NAMES rand.lastSeed
    else persona_name0
  let persona_age : Option Int := if generated_age ≠ 0
    then some generated_age
    else parse_int pi.age
  let persona_name := match persona_age with
    | some a => if a ≠ 0 then persona_name1 ++ ", " ++ toString a else persona_name1
    | Option.none => persona_name1
  let persona_descriptor := if pd0 = ""
    then pyCapitalize (personality_summary ++ " customer persona")
    else pd0
  let persona_traits := match pi.traits with
    | some l => if l = [] then selected_characteristics else l
    | Option.none => selected_characteristics
  { text := review_text, metadata :=
    { persona_name := persona_name,
      persona_descriptor := persona_descriptor,
      characteristics := persona_traits,
      characteristic_intensities := characteristic_intensities,
      sentiment_rating := rating_value,
      personality_description := persona_descriptor,
      age_range := match bounds.1, bounds.2 with
        | some lo, some hi => some (toString lo ++ "-" ++ toString hi)
        | _, _ => Option.none,
      age := persona_age,
      gender := if gender1 = "" then Option.none else some gender1,
      location := if location1 = "" then Option.none else some location1,
      profession := if profession1 = "" then Option.none else some profession1,
      tone := if tone1 = "" then Option.none else some tone1,
      motivations := pi.motivations,
      traits_summary := personality_summary,
      source_documents_used := docUsed document_text,
      review_summary := if rs0 = "" then Option.none
        else some rs0 } }

/-- Embedding of `generate_review` (src/app.py lines 206-435).  The prompt
assembly (lines 246-313) is omitted: its output is consumed only by the
external API, which the embedding abstracts as the `api` parameter; the
ensuing `json.loads` of the returned text is abstracted as `parsed`.
The `age_min` / `age_max` arguments model the values after `parse_int`
(which is the identity on int-or-None inputs, the only values the
`/generate` route passes). -/
def generate_review (cfg : GenConfig) (prompt : String)
    (selected_characteristics : List String)
    (characteristic_intensities : List (String × ℚ))
    (age_min age_max : Option Int)
    (gender location document_text : Option String)
    (rand : RandSrc) (api : ApiOutcome) (parsed : Option ParsedDoc) : GenOutcome :=
  if ¬(cfg.genaiLoaded = true ∧ cfg.apiKeyPresent = true) then
    .err "Gemini API key not configured"
  else if selected_characteristics = [] then
    .err "No characteristics selected"
  else
    let trait_descriptions := selected_characteristics.map
      (fun c => intensityLabel (dictGet characteristic_intensities c 1) ++ " " ++ c)
    let personality_summary := ", ".intercalate trait_descriptions
    let bounds := swappedBounds age_min age_max
    match resolveAge age_min age_max rand.ageSeed with
    | Option.none => .exn "empty range for randrange"
    | some generated_age =>
      match api with
      | .raised msg => .err ("Gemini error: " ++ msg)
      | .ok t =>
        let raw_output := pyStrip t
        let cleaned_output := stripFences raw_output
        let parsedEff := if cleaned_output = "" then Option.none else parsed
        match parsedEff with
        | Option.none =>
          let r := build_metadata_from_text selected_characteristics
            characteristic_intensities personality_summary bounds.1 bounds.2
            generated_age gender location document_text rand raw_output
          .success { text := r.1, metadata := r.2 }
        | some doc =>
          match doc.review with
          | .nonDict => .err ("Gemini error: " ++ attributeErrorMsg)
          | .dict ri =>
            match stripGet ri.text with
            | Option.none => .err ("Gemini error: " ++ attributeErrorMsg)
            | some review_text =>
              if review_text = "" then
                let r := build_metadata_from_text selected_characteristics
                  characteristic_intensities personality_summary bounds.1 bounds.2
                  generated_age gender location document_text rand raw_output
                .success { text := r.1, metadata := r.2 }
              else
                match doc.persona with
                | .nonDict => .err ("Gemini error: " ++ attributeErrorMsg)
                | .dict pi =>
                  match stripGet pi.name with
                  | Option.none => .err ("Gemini error: " ++ attributeErrorMsg)
                  | some persona_name0 =>
                    match stripGet (orPy pi.gender (orPy (optToPyStr gender) (PyStr.str ""))) with
                    | Option.none => .err ("Gemini error: " ++ attributeErrorMsg)
                    | some gender1 =>
                      match stripGet (orPy pi.location (orPy (optToPyStr location) (PyStr.str ""))) with
                      | Option.none => .err ("Gemini error: " ++ attributeErrorMsg)
                      | some location1 =>
                        match stripGet pi.profession with
                        | Option.none => .err ("Gemini error: " ++ attributeErrorMsg)
                        | some profession1 =>
                          match stripGet pi.tone with
                          | Option.none => .err ("Gemini error: " ++ attributeErrorMsg)
                          | some tone1 =>
                            match stripGet (orPy pi.descriptor (orPy pi.summary (PyStr.str ""))) with
                            | Option.none => .err ("Gemini error: " ++ attributeErrorMsg)
                            | some pd0 =>
                              match stripGet ri.summary with
                              | Option.none => .err ("Gemini error: " ++ attributeErrorMsg)
                              | some rs0 =>
                                .success (structuredReview selected_characteristics
                                  characteristic_intensities personality_summary bounds
                                  generated_age document_text rand pi ri review_text
                                  persona_name0 gender1 location1 profession1 tone1 pd0 rs0)

theorem clamp_rating_bounds (r : Int) : 1 ≤ max 1 (min 10 r) ∧ max 1 (min 10 r) ≤ 10 :=
  ⟨le_max_left _ _, max_le (by norm_num) (min_le_left _ _)⟩

theorem name_space_ne_empty (a b : String) : a ++ " " ++ b ≠ "" := by
  intro h
  have hl := congrArg String.length h
  simp only [String.length_append, String.length_empty] at hl
  have : (" " : String).length = 1 := rfl
  omega

theorem name_comma_ne_empty (a b : String) : a ++ ", " ++ b ≠ "" := by
  intro h
  have hl := congrArg String.length h
  simp only [String.length_append, String.length_empty] at hl
  have : (", " : String).length = 2 := rfl
  omega

theorem bmft_props (chars : List String) (intens : List (String × ℚ))
    (ps : String) (amin amax : Option Int) (ga : Int)
    (g loc dt : Option String) (rand : RandSrc) (raw : String) :
    1 ≤ (build_metadata_from_text chars intens ps amin amax ga g loc dt rand raw).2.sentiment_rating ∧
    (build_metadata_from_text chars intens ps amin amax ga g loc dt rand raw).2.sentiment_rating ≤ 10 ∧
    (build_metadata_from_text chars intens ps amin amax ga g loc dt rand raw).2.persona_name ≠ "" := by
  simp only [build_metadata_from_text]
  refine ⟨(clamp_rating_bounds _).1, (clamp_rating_bounds _).2, ?_⟩
  split_ifs
  · exact name_comma_ne_empty _ _
  · exact name_space_ne_empty _ _

theorem structuredReview_props (chars : List String)
    (intens : List (String × ℚ)) (ps : String) (bounds : Option Int × Option Int)
    (ga : Int) (dt : Option String) (rand : RandSrc)
    (pi : PersonaInfo) (ri : ReviewInfo) (rt nm0 g1 l1 pr1 to1 pd0 rs0 : String) :
    1 ≤ (structuredReview chars intens ps bounds ga dt rand pi ri rt nm0 g1 l1 pr1 to1 pd0 rs0).metadata.sentiment_rating ∧
    (structuredReview chars intens ps bounds ga dt rand pi ri rt nm0 g1 l1 pr1 to1 pd0 rs0).metadata.sentiment_rating ≤ 10 ∧
    (structuredReview chars intens ps bounds ga dt rand pi ri rt nm0 g1 l1 pr1 to1 pd0 rs0).metadata.persona_name ≠ "" := by
  simp only [structuredReview]
  refine ⟨(clamp_rating_bounds _).1, (clamp_rating_bounds _).2, ?_⟩
  repeat'
    first
    | exact name_comma_ne_empty _ _
    | exact name_space_ne_empty _ _
    | assumption
    | split_ifs
    | split

/-- Projection of a generate_review outcome to its metadata, when it is a
success. -/
def outcomeMeta : GenOutcome → Option Metadata
  | .success rv => some rv.metadata
  | _ => Option.none

/-- Projection of a generate_review outcome to its review text, when it is
a success. -/
def outcomeText : GenOutcome → Option String
  | .success rv => some rv.text
  | _ => Option.none

set_option maxHeartbeats 2000000 in
/-- C2: every review produced by generate_review — on the structured-JSON
path and on the free-text fallback path alike — has sentiment_rating an
integer in [1,10] and a non-empty persona_name, whatever rating value the
model output carried; concretely, a parsed rating of 0 clamps to 1, 57
clamps to 10, and an absent or unparseable rating defaults to 5, on both
paths. -/
theorem claim_C2_metadata_invariants :
    (∀ cfg prompt chars intens amin amax g loc dt rand api parsed rv,
      generate_review cfg prompt chars intens amin amax g loc dt rand api parsed =
        .success rv →
      1 ≤ rv.metadata.sentiment_rating ∧ rv.metadata.sentiment_rating ≤ 10 ∧
        rv.metadata.persona_name ≠ "") ∧
    ((outcomeMeta (generate_review ⟨true, true⟩ "idea" ["analytical"] []
        Option.none Option.none Option.none Option.none Option.none ⟨0, 0, 0⟩
        (.ok "Nice idea. RATING: 0") Option.none)).map
        (fun m => m.sentiment_rating) = some 1) ∧
    ((outcomeMeta (generate_review ⟨true, true⟩ "idea" ["analytical"] []
        Option.none Option.none Option.none Option.none Option.none ⟨0, 0, 0⟩
        (.ok "Nice idea. RATING: 57") Option.none)).map
        (fun m => m.sentiment_rating) = some 10) ∧
    ((outcomeMeta (generate_review ⟨true, true⟩ "idea" ["analytical"] []
        Option.none Option.none Option.none Option.none Option.none ⟨0, 0, 0⟩
        (.ok "Nice idea with no rating line.") Option.none)).map
        (fun m => m.sentiment_rating) = some 5) ∧
    ((outcomeMeta (generate_review ⟨true, true⟩ "idea" ["analytical"] []
        Option.none Option.none Option.none Option.none Option.none ⟨0, 0, 0⟩
        (.ok "x")
        (some { review := PyField.dict { text := PyStr.str "Great concept.", rating := PyVal.int 0 } }))).map
        (fun m => m.sentiment_rating) = some 1) ∧
    ((outcomeMeta (generate_review ⟨true, true⟩ "idea" ["analytical"] []
        Option.none Option.none Option.none Option.none Option.none ⟨0, 0, 0⟩
        (.ok "x")
        (some { review := PyField.dict { text := PyStr.str "Great concept.", rating := PyVal.int 57 } }))).map
        (fun m => m.sentiment_rating) = some 10) ∧
    ((outcomeMeta (generate_review ⟨true, true⟩ "idea" ["analytical"] []
        Option.none Option.none Option.none Option.none Option.none ⟨0, 0, 0⟩
        (.ok "x")
        (some { review := PyField.dict { text := PyStr.str "Great concept.", rating := PyVal.str "wild" } }))).map
        (fun m => m.sentiment_rating) = some 5) ∧
    ((outcomeMeta (generate_review ⟨true, true⟩ "idea" ["analytical"] []
        Option.none Option.none Option.none Option.none Option.none ⟨0, 0, 0⟩
        (.ok "x")
        (some { persona := PyField.dict { name := PyStr.str "" }, review := PyField.dict { text := PyStr.str "Great concept." } }))).map
        (fun m => m.persona_name) = some "Alex Smith, 22") := by
  refine ⟨?_, by decide, by decide, by decide, by decide, by decide, by decide, by decide⟩
  intro cfg prompt chars intens amin amax g loc dt rand api parsed rv h
  simp only [generate_review] at h
  repeat'
    first
    | exact GenOutcome.noConfusion h
    | split_ifs at h
    | split at h
  all_goals rw [GenOutcome.success.injEq] at h
  all_goals subst h
  all_goals first
    | exact bmft_props _ _ _ _ _ _ _ _ _ _ _
    | exact structuredReview_props _ _ _ _ _ _ _ _ _ _ _ _ _ _ _ _ _

/-- C2 witness metadata: the concrete record generate_review produces for
the inputs used in the witness below. -/
def mdC2w : Metadata :=
  { persona_name := "Alex Smith, 22",
    persona_descriptor := "Moderately analytical customer persona",
    characteristics := ["analytical"],
    characteristic_intensities := [],
    sentiment_rating := 9,
    personality_description := "Moderately analytical customer persona",
    age_range := Option.none,
    age := some 22,
    gender := Option.none,
    location := Option.none,
    profession := Option.none,
    tone := Option.none,
    motivations := Option.none,
    traits_summary := "moderately analytical",
    source_documents_used := false,
    review_summary := Option.none }

/-- C2 witness: the invariant theorem applied to a concrete successful
free-text generation. -/
theorem claim_C2_witness :
    1 ≤ mdC2w.sentiment_rating ∧ mdC2w.sentiment_rating ≤ 10 ∧
      mdC2w.persona_name ≠ "" :=
  claim_C2_metadata_invariants.1 ⟨true, true⟩ "idea" ["analytical"] []
    Option.none Option.none Option.none Option.none Option.none ⟨0, 0, 0⟩
    (.ok "Solid concept. RATING: 9") Option.none
    ⟨"Solid concept.", mdC2w⟩ (by decide)

theorem stripGet_some (a : PyStr) (ha : a ≠ PyStr.nonStr) :
    ∃ s, stripGet a = some s := by
  cases a with
  | none => exact ⟨"", rfl⟩
  | str s => exact ⟨pyStrip s, rfl⟩
  | nonStr => exact absurd rfl ha

theorem optToPyStr_ne_nonStr (b : Option String) : optToPyStr b ≠ PyStr.nonStr := by
  cases b <;> simp [optToPyStr]

theorem orPy_ne_nonStr (a b : PyStr) (ha : a ≠ PyStr.nonStr)
    (hb : b ≠ PyStr.nonStr) : orPy a b ≠ PyStr.nonStr := by
  cases a with
  | nonStr => exact absurd rfl ha
  | none => simpa [orPy] using hb
  | str s =>
    simp only [orPy]
    split_ifs
    · exact hb
    · simp

/-- A review object all of whose string-consumed leaves can be stripped
without raising. -/
def riClean : PyField ReviewInfo → Prop
  | PyField.dict ri => ri.text ≠ PyStr.nonStr ∧ ri.summary ≠ PyStr.nonStr
  | PyField.nonDict => False

/-- A persona object all of whose string-consumed leaves can be stripped
without raising. -/
def piClean : PyField PersonaInfo → Prop
  | PyField.dict pi => pi.name ≠ PyStr.nonStr ∧ pi.gender ≠ PyStr.nonStr ∧
      pi.location ≠ PyStr.nonStr ∧ pi.profession ≠ PyStr.nonStr ∧
      pi.tone ≠ PyStr.nonStr ∧ pi.descriptor ≠ PyStr.nonStr ∧
      pi.summary ≠ PyStr.nonStr
  | PyField.nonDict => False

/-- A parsed document whose persona and review fields have the expected
object shape and whose string-typed leaves hold no truthy non-string
value — exactly the region in which none of the handler's attribute
accesses can raise. -/
def wellShaped : Option ParsedDoc → Prop
  | Option.none => True
  | some d => riClean d.review ∧ piClean d.persona

/-- C4 counterexample: with the API key configured and an API call that
returns normally, generate_review still returns error results the claim's
"only when the external API call itself raises or the API key/library is
absent" omits: an empty characteristics list, and JSON output such as
a review object whose text member is a truthy non-string (the model of
the output \x7b"review": \x7b"text": 42\x7d\x7d, whose `.strip()` raises
AttributeError inside the try and is caught as a Gemini error). -/
theorem claim_C4_counterexample :
    (generate_review ⟨true, true⟩ "idea" [] [] Option.none Option.none
      Option.none Option.none Option.none ⟨0, 0, 0⟩ (.ok "Sounds nice!")
      Option.none = .err "No characteristics selected") ∧
    (generate_review ⟨true, true⟩ "idea" ["analytical"] [] Option.none
      Option.none Option.none Option.none Option.none ⟨0, 0, 0⟩ (.ok "x")
      (some { review := PyField.dict { text := PyStr.nonStr } }) =
      .err ("Gemini error: " ++ attributeErrorMsg)) := by
  exact ⟨by decide, by decide⟩

/-- C4 amended: generate_review returns an error result (None, message)
only when the external API call raises, the API key/library is absent,
the characteristics list is empty, or the JSON output carries a
raise-inducing value — a non-object persona/review field, or a truthy
non-string in one of their string-typed members — which raises inside the
handler and is caught as a Gemini error; for every API response that
returns without raising whose text is not parseable JSON, lacks a review
text field (absent, null or empty), or is empty, it still returns a
review, synthesizing the body "No feedback received." with neutral rating
5 and a random generic persona name when the output is empty — never an
error. -/
theorem claim_C4_malformed_output_never_errors :
    (∀ cfg prompt chars intens amin amax g loc dt rand raw parsed,
      cfg.genaiLoaded = true → cfg.apiKeyPresent = true → chars ≠ [] →
      wellShaped parsed →
      (∀ msg, generate_review cfg prompt chars intens amin amax g loc dt rand
        (.ok raw) parsed ≠ .err msg) ∧
      (∀ ga, resolveAge amin amax rand.ageSeed = some ga →
        ∃ rv, generate_review cfg prompt chars intens amin amax g loc dt rand
          (.ok raw) parsed = .success rv)) ∧
    (outcomeText (generate_review ⟨true, true⟩ "idea" ["analytical"] []
      Option.none Option.none Option.none Option.none Option.none ⟨0, 0, 0⟩
      (.ok "") Option.none) = some "No feedback received.") ∧
    ((outcomeMeta (generate_review ⟨true, true⟩ "idea" ["analytical"] []
      Option.none Option.none Option.none Option.none Option.none ⟨0, 0, 0⟩
      (.ok "") Option.none)).map
      (fun m => (m.sentiment_rating, m.persona_name)) = some (5, "Alex Smith, 22")) := by
  refine ⟨?_, by decide, by decide⟩
  intro cfg prompt chars intens amin amax g loc dt rand raw parsed h1 h2 hchars hws
  rcases parsed with _ | d
  · constructor
    · intro msg hcontra
      simp only [generate_review, h1, h2, hchars] at hcontra
      repeat'
        first
        | exact (show False by assumption).elim
        | exact absurd ⟨trivial, trivial⟩ (show ¬(True ∧ True) by assumption)
        | exact GenOutcome.noConfusion hcontra
        | split_ifs at hcontra
        | split at hcontra
    · intro ga hage
      simp only [generate_review, h1, h2, hchars, hage]
      repeat'
        first
        | exact (show False by assumption).elim
        | exact absurd ⟨trivial, trivial⟩ (show ¬(True ∧ True) by assumption)
        | exact ⟨_, rfl⟩
        | split_ifs
        | split
  · obtain ⟨pf, rf⟩ := d
    simp only [wellShaped] at hws
    cases rf with
    | nonDict => exact absurd hws.1 (by simp [riClean])
    | dict ri =>
    cases pf with
    | nonDict => exact absurd hws.2 (by simp [piClean])
    | dict pi =>
    simp only [riClean, piClean] at hws
    obtain ⟨⟨htext, hsum⟩, hname, hgen, hloc, hprof, htone, hdesc, hpsum⟩ := hws
    obtain ⟨rt0, hrt⟩ := stripGet_some _ htext
    obtain ⟨nm0, hnm⟩ := stripGet_some _ hname
    obtain ⟨g1, hg1⟩ := stripGet_some (orPy pi.gender (orPy (optToPyStr g) (PyStr.str "")))
      (orPy_ne_nonStr pi.gender (orPy (optToPyStr g) (PyStr.str "")) hgen
        (orPy_ne_nonStr (optToPyStr g) (PyStr.str "") (optToPyStr_ne_nonStr g) (by decide)))
    obtain ⟨l1, hl1⟩ := stripGet_some (orPy pi.location (orPy (optToPyStr loc) (PyStr.str "")))
      (orPy_ne_nonStr pi.location (orPy (optToPyStr loc) (PyStr.str "")) hloc
        (orPy_ne_nonStr (optToPyStr loc) (PyStr.str "") (optToPyStr_ne_nonStr loc) (by decide)))
    obtain ⟨pr1, hpr⟩ := stripGet_some _ hprof
    obtain ⟨to1, hto⟩ := stripGet_some _ htone
    obtain ⟨pd0, hpd⟩ := stripGet_some (orPy pi.descriptor (orPy pi.summary (PyStr.str "")))
      (orPy_ne_nonStr pi.descriptor (orPy pi.summary (PyStr.str "")) hdesc
        (orPy_ne_nonStr pi.summary (PyStr.str "") hpsum (by decide)))
    obtain ⟨rs0, hrs⟩ := stripGet_some _ hsum
    constructor
    · intro msg hcontra
      simp only [generate_review, h1, h2, hchars, hrt, hnm, hg1, hl1, hpr,
        hto, hpd, hrs] at hcontra
      repeat'
        first
        | exact (show False by assumption).elim
        | exact absurd ⟨trivial, trivial⟩ (show ¬(True ∧ True) by assumption)
        | exact GenOutcome.noConfusion hcontra
        | split_ifs at hcontra
        | split at hcontra
        | (subst_vars; simp_all)
        | simp_all
    · intro ga hage
      simp only [generate_review, h1, h2, hchars, hage, hrt, hnm, hg1, hl1,
        hpr, hto, hpd, hrs]
      repeat'
        first
        | exact (show False by assumption).elim
        | exact absurd ⟨trivial, trivial⟩ (show ¬(True ∧ True) by assumption)
        | exact ⟨_, rfl⟩
        | split_ifs
        | split
        | (subst_vars; simp_all)
        | simp_all

/-- C4 witness: the amended theorem applied at a concrete input whose API
response is syntactically broken JSON (parse failure), which still yields a
review rather than an error. -/
theorem claim_C4_witness :
    (∀ msg, generate_review ⟨true, true⟩ "idea" ["analytical"] []
      Option.none Option.none Option.none Option.none Option.none ⟨0, 0, 0⟩
      (.ok "not json at all") Option.none ≠ .err msg) ∧
    ∃ rv, generate_review ⟨true, true⟩ "idea" ["analytical"] []
      Option.none Option.none Option.none Option.none Option.none ⟨0, 0, 0⟩
      (.ok "not json at all") Option.none = .success rv := by
  have h := claim_C4_malformed_output_never_errors.1 ⟨true, true⟩ "idea"
    ["analytical"] [] Option.none Option.none Option.none Option.none
    Option.none ⟨0, 0, 0⟩ "not json at all" Option.none rfl rfl
    (by simp) trivial
  exact ⟨h.1, h.2 22 (by decide)⟩

/- ------------------------------------------------------------------ -/
/- src/app.py : build_fallback_personas                               -/
/- ------------------------------------------------------------------ -/

/-- The apostrophe character, built by code point so the source file
itself contains none. -/
def apos : String := String.mk [Char.ofNat 39]

/-- One fallback persona template (src/app.py lines 1073-1104). -/
structure FbTemplate where
  persona_name : String
  persona_descriptor : String
  tone : String
  location : String
deriving DecidableEq

/-- Embedding of the `base_personas` template list (src/app.py lines
1073-1104). -/
def base_personas : List FbTemplate :=
  [⟨"Avery Chen", "Strategy-focused product designer", "supportive", "North America"⟩,
   ⟨"Jordan Ramirez", "Data-driven growth specialist", "analytical", "Europe"⟩,
   ⟨"Morgan Patel", "User empathy researcher", "empathetic", "Asia"⟩,
   ⟨"Sam Rivera", "Creative marketing strategist", "enthusiastic", "South America"⟩,
   ⟨"Lena Schmidt", "Detail-oriented quality assurance", "critical", "Europe"⟩]

/-- The metadata record of one fallback persona (src/app.py lines
1137-1144); it carries fewer keys than a live review's metadata. -/
structure FallbackMeta where
  persona_name : String
  persona_descriptor : String
  characteristics : List String
  sentiment_rating : Int
  location : String
  personality_description : String
deriving DecidableEq

/-- One fallback persona record (src/app.py lines 1132-1146). -/
structure FallbackRec where
  id : Nat
  index : Nat
  review : String
  metadata : FallbackMeta
deriving DecidableEq

/-- Random seeds consumed by one fallback entry (name and age draws). -/
structure FbSeeds where
  firstSeed : Nat
  lastSeed : Nat
  ageSeed : Nat
deriving DecidableEq

/-- Embedding of `build_fallback_personas` (src/app.py lines 1071-1149):
deterministic templated personas, cycling templates by index mod 5 and
ratings by 6 + (idx mod 3), with a seed-indexed random display name and
age in [22,65] per entry; it performs no external API call (the function
takes no ApiOutcome) and always returns records plus the offline-mode
message. -/
def build_fallback_personas (text : String) (num_reviewers : Int)
    (selected_characteristics : List String) (seeds : Nat → FbSeeds) :
    List FallbackRec × String :=
  let chars := if selected_characteristics = [] then ["Balanced", "Insightful"]
    else selected_characteristics
  let snippet := pyTake text 60 ++ (if text.length > 60 then "‚Ä¶" else "")
  let n := (max 1 num_reviewers).toNat
  let recs : List FallbackRec := (List.range n).map (fun idx =>
    let template := base_personas.getD (idx % base_personas.length) ⟨"", "", "", ""⟩
    let first_name := pick FIRST_NAMES (seeds idx).firstSeed
    let last_name := pick LAST_NAMES (seeds idx).lastSeed
    let persona_age := randintVal 22 65 (seeds idx).ageSeed
    let persona_name := first_name ++ " " ++ last_name ++ ", " ++ toString persona_age
    let rating : Int := 6 + ((idx % 3 : Nat) : Int)
    let review_text := "As a " ++ pyLower template.persona_descriptor ++ ", I" ++
      apos ++ "ve considered \"" ++ snippet ++ "\". " ++
      "It shows promise, but clarifying the value proposition and next validation steps would help."
    { id := idx + 1, index := idx + 1, review := review_text,
      metadata :=
        { persona_name := persona_name,
          persona_descriptor := template.persona_descriptor,
          characteristics := chars,
          sentiment_rating := rating,
          location := template.location,
          personality_description := template.persona_descriptor } })
  (recs, "Using simulated persona insights (offline mode).")

/-- Dummy fallback record used as the default of positional lookups in
theorem statements. -/
def fbDummy : FallbackRec := ⟨0, 0, "", ⟨"", "", [], 0, "", ""⟩⟩

/-- C7: for every count ≥ 1 and any idea text, build_fallback_personas
returns exactly count records with ids 1..count; the record at 0-based
index idx draws its descriptor/tone/location template at index idx mod 5,
carries sentiment_rating 6 + (idx mod 3) — a value in {6,7,8} — and a
random display name embedding a random age in [22,65]; the offline-mode
message is always returned, and the builder makes no external API call
(it is a total function with no API parameter). -/
theorem claim_C7_fallback_builder (text : String) (chars : List String)
    (seeds : Nat → FbSeeds) (n : Nat) (hn : 1 ≤ n) :
    ((build_fallback_personas text ((n : Int)) chars seeds).1.length = n) ∧
    ((build_fallback_personas text ((n : Int)) chars seeds).2 =
      "Using simulated persona insights (offline mode).") ∧
    (∀ idx, idx < n →
      (((build_fallback_personas text ((n : Int)) chars seeds).1.getD idx fbDummy).id = idx + 1) ∧
      (((build_fallback_personas text ((n : Int)) chars seeds).1.getD idx fbDummy).metadata.sentiment_rating = 6 + ((idx % 3 : Nat) : Int)) ∧
      (6 ≤ ((build_fallback_personas text ((n : Int)) chars seeds).1.getD idx fbDummy).metadata.sentiment_rating ∧
        ((build_fallback_personas text ((n : Int)) chars seeds).1.getD idx fbDummy).metadata.sentiment_rating ≤ 8) ∧
      (((build_fallback_personas text ((n : Int)) chars seeds).1.getD idx fbDummy).metadata.persona_descriptor =
        (base_personas.getD (idx % 5) ⟨"", "", "", ""⟩).persona_descriptor) ∧
      (((build_fallback_personas text ((n : Int)) chars seeds).1.getD idx fbDummy).metadata.location =
        (base_personas.getD (idx % 5) ⟨"", "", "", ""⟩).location) ∧
      (∃ a : Int, 22 ≤ a ∧ a ≤ 65 ∧
        ((build_fallback_personas text ((n : Int)) chars seeds).1.getD idx fbDummy).metadata.persona_name =
          pick FIRST_NAMES (seeds idx).firstSeed ++ " " ++
          pick LAST_NAMES (seeds idx).lastSeed ++ ", " ++ toString a)) := by
  have hmax : (max 1 ((n : Int))).toNat = n := by omega
  have hb : base_personas.length = 5 := rfl
  simp only [build_fallback_personas, hmax, hb]
  refine ⟨by simp, trivial, ?_⟩
  intro idx hidx
  have hidx2 : idx < (List.range n).length := by simpa using hidx
  have hgd : ∀ (f : Nat → FallbackRec),
      ((List.range n).map f).getD idx fbDummy = f idx := by
    intro f
    rw [List.getD_eq_getElem _ _ (by simpa using hidx)]
    simp
  rw [hgd]
  have hage := randint_mem 22 65 (seeds idx).ageSeed (by omega)
  refine ⟨rfl, rfl,
    ⟨(show (6 : Int) ≤ 6 + ((idx % 3 : Nat) : Int) by omega),
     (show (6 : Int) + ((idx % 3 : Nat) : Int) ≤ 8 by omega)⟩, rfl, rfl, ?_⟩
  exact ⟨randintVal 22 65 (seeds idx).ageSeed, hage.2.1, hage.2.2, rfl⟩

/-- C7 witness: the builder theorem applied at count 2 with concrete
seeds; the second record cycles to rating 7 and template index 1. -/
theorem claim_C7_witness :
    ((build_fallback_personas "A tea box" ((2 : Int)) ["analytical"]
      (fun _ => ⟨0, 0, 0⟩)).1.length = 2) ∧
    (((build_fallback_personas "A tea box" ((2 : Int)) ["analytical"]
      (fun _ => ⟨0, 0, 0⟩)).1.getD 1 fbDummy).metadata.sentiment_rating = 7) := by
  have h := claim_C7_fallback_builder "A tea box" ["analytical"]
    (fun _ => ⟨0, 0, 0⟩) 2 (by omega)
  exact ⟨h.1, by simpa using (h.2.2 1 (by omega)).2.1⟩

/- ------------------------------------------------------------------ -/
/- src/app.py : generate_feedback_summary                             -/
/- ------------------------------------------------------------------ -/

/-- One collected review record of a `/generate` batch (src/app.py lines
712-719). -/
structure ReviewRec where
  id : Nat
  index : Nat
  review : String
  metadata : Metadata
deriving DecidableEq

/-- A truthy optional string as a singleton context part, else nothing. -/
def optPart (o : Option String) : List String :=
  match o with
  | some s => if s = "" then [] else [s]
  | Option.none => []

/-- Embedding of the per-review formatting loop of
generate_feedback_summary (src/app.py lines 454-484): `none` when the
review text is blank and the review is skipped. -/
def reviewLine (r : ReviewRec) : Option String :=
  let review_text := pyStrip r.review
  if review_text = "" then Option.none
  else
    let md := r.metadata
    let parts :=
      (if md.persona_name ≠ "" then [md.persona_name] else []) ++
      optPart md.profession ++
      ((optPart md.tone).map (fun t => "tone: " ++ t)) ++
      optPart md.location ++
      (if md.characteristics ≠ [] then
        ["traits: " ++ ", ".intercalate (md.characteristics.take 5)] else [])
    let persona_context := " | ".intercalate parts
    if persona_context ≠ "" then
      some (toString r.id ++ ": (" ++ persona_context ++ ") " ++ review_text)
    else
      some (toString r.id ++ ": " ++ review_text)

/-- The character suffix after the first case-insensitive occurrence of
the (lowercase) pattern, scanning left to right. -/
def afterSubCI (pat : List Char) : List Char → Option (List Char)
  | [] => Option.none
  | c :: cs =>
    if isPrefCI pat (c :: cs) then some ((c :: cs).drop pat.length)
    else afterSubCI pat cs

/-- The characters before the first case-insensitive occurrence of the
(lowercase) pattern, the whole list when absent. -/
def upToSubCI (pat : List Char) : List Char → List Char
  | [] => []
  | c :: cs =>
    if isPrefCI pat (c :: cs) then []
    else c :: upToSubCI pat cs

/-- Model of Python `lstrip("-‚Ä¢")`: drop leading characters from that
set. -/
def lstripBullet (s : String) : String :=
  String.mk (s.toList.dropWhile (fun c => c == '-' || c == '‚' || c == 'Ä' || c == '¢'))

/-- Bullet-line extraction applied to one section's text (src/app.py
lines 541-545 and 550-554). -/
def bulletItems (sectionText : String) : List String :=
  (splitLines sectionText).filterMap (fun line =>
    let t := pyStrip line
    if t ≠ "" ∧ (startsW t "-" = true ∨ startsW t "‚Ä¢" = true) then
      some (pyStrip (lstripBullet t))
    else Option.none)

/-- The regex pass of the summary parser (src/app.py lines 535-554):
the GLOWS section runs to the next GROWS header or the end, the GROWS
section to the end; bullets are extracted per line. -/
def parseSections (summary_text : String) : List String × List String :=
  let glows := match afterSubCI "glows:".toList summary_text.toList with
    | some rest => bulletItems (pyStrip (String.mk (upToSubCI "grows:".toList rest)))
    | Option.none => []
  let grows := match afterSubCI "grows:".toList summary_text.toList with
    | some rest => bulletItems (pyStrip (String.mk rest))
    | Option.none => []
  (glows, grows)

/-- One step of the loose line-by-line fallback parser (src/app.py lines
557-573): the accumulator is (glows, grows, current section). -/
def looseLine (acc : List String × List String × Option Bool) (line : String) :
    List String × List String × Option Bool :=
  let line_lower := pyStrip (pyLower line)
  if containsSub line_lower "glow" = true ∧ containsSub line ":" = true then
    (acc.1, acc.2.1, some true)
  else if containsSub line_lower "grow" = true ∧ containsSub line ":" = true then
    (acc.1, acc.2.1, some false)
  else if startsW (pyStrip line) "-" = true ∨ startsW (pyStrip line) "‚Ä¢" = true then
    let item := pyStrip (lstripBullet (pyStrip line))
    if item ≠ "" then
      match acc.2.2 with
      | some true => (acc.1 ++ [item], acc.2.1, acc.2.2)
      | some false => (acc.1, acc.2.1 ++ [item], acc.2.2)
      | Option.none => acc
    else acc
  else acc

/-- The loose fallback pass of the summary parser. -/
def parseLoose (summary_text : String) : List String × List String :=
  let r := (splitLines summary_text).foldl looseLine ([], [], Option.none)
  (r.1, r.2.1)

/-- Result of generate_feedback_summary; apiCalled records whether the
external text-generation provider was invoked on that run. -/
structure SummaryOut where
  glows : List String
  grows : List String
  apiCalled : Bool
deriving DecidableEq

/-- Embedding of `generate_feedback_summary` (src/app.py lines 438-591).
The prompt built from the formatted (8000-character-capped) feedback text
is consumed only by the abstracted API call. -/
def generate_feedback_summary (cfg : GenConfig) (reviews : List ReviewRec)
    (api : ApiOutcome) : SummaryOut :=
  if ¬(cfg.genaiLoaded = true ∧ cfg.apiKeyPresent = true) then ⟨[], [], false⟩
  else if reviews = [] then ⟨[], [], false⟩
  else
    let formatted_feedbacks := reviews.filterMap reviewLine
    if formatted_feedbacks = [] then ⟨[], [], false⟩
    else
      let feedback_text := ", ".intercalate formatted_feedbacks
      let _prompt_payload := if feedback_text.length > 8000
        then pyTake feedback_text 8000 ++ "..." else feedback_text
      match api with
      | .raised _ =>
        ⟨["Strong value proposition", "Innovative approach", "Clear target audience"],
         ["Consider refining user experience", "Clarify monetization strategy",
          "Address technical challenges"], true⟩
      | .ok t =>
        let summary_text := pyStrip t
        let p1 := parseSections summary_text
        let p2 := if p1.1 = [] ∧ p1.2 = [] then parseLoose summary_text else p1
        let glows := if p2.1 = [] then
          ["Positive aspects identified in feedback", "Strong value proposition"]
          else p2.1
        let grows := if p2.2 = [] then
          ["Areas for improvement identified", "Consider refining the approach"]
          else p2.2
        ⟨glows.take 5, grows.take 5, true⟩

/-- C9: on the empty review list generate_feedback_summary returns the
pair of empty glows/grows immediately and never invokes the
text-generation provider, for every configuration and every would-be API
outcome. -/
theorem claim_C9_empty_input (cfg : GenConfig) (api : ApiOutcome) :
    generate_feedback_summary cfg [] api =
      { glows := [], grows := [], apiCalled := false } := by
  simp only [generate_feedback_summary]
  split_ifs <;> rfl

/-- C9 witness: the theorem applied to the fully-configured state and an
API stub that would have returned parseable text. -/
theorem claim_C9_witness :
    generate_feedback_summary ⟨true, true⟩ []
      (.ok "GLOWS: - x GROWS: - y") =
      { glows := [], grows := [], apiCalled := false } :=
  claim_C9_empty_input ⟨true, true⟩ (.ok "GLOWS: - x GROWS: - y")

/- ------------------------------------------------------------------ -/
/- src/app.py : the concurrent dispatcher tail of /generate           -/
/- ------------------------------------------------------------------ -/

/-- What one completed future delivers back to the collection loop
(src/app.py lines 704-723): `ok` is a normal `(review, err)` return of
generate_review, `exn` an exception raised by the task. -/
inductive FutureRes where
  | ok (review : Option ReviewVal) (err : Option String)
  | exn (msg : String)
deriving DecidableEq

/-- Whether a future produced a review. -/
def isSuccessFR : FutureRes → Bool
  | .ok (some _) _ => true
  | _ => false

/-- Embedding of the as_completed collection loop (src/app.py lines
704-723), processing futures in the given completion order: successful
reviews are appended (with the persona_name backstop of lines 709-711),
error returns and exceptions are appended to the error list as
"Persona <id>: <message>", and an (impossible for generate_review)
(None, None) return appends nothing. -/
def collectResults : List (Nat × FutureRes) → List ReviewRec × List String
  | [] => ([], [])
  | (tid, fr) :: rest =>
    let acc := collectResults rest
    match fr with
    | .ok (some rv) _ =>
      let md := if rv.metadata.persona_name = ""
        then { rv.metadata with persona_name := "Persona " ++ toString tid }
        else rv.metadata
      ({ id := tid, index := tid, review := rv.text, metadata := md } :: acc.1, acc.2)
    | .ok Option.none (some e) =>
      (acc.1, ("Persona " ++ toString tid ++ ": " ++ e) :: acc.2)
    | .ok Option.none Option.none => acc
    | .exn e =>
      (acc.1, ("Persona " ++ toString tid ++ ": " ++ e) :: acc.2)

/-- Stable insertion into a list sorted ascending by id. -/
def insertById (r : ReviewRec) : List ReviewRec → List ReviewRec
  | [] => [r]
  | x :: xs => if r.id ≤ x.id then r :: x :: xs else x :: insertById r xs

/-- Model of `reviews.sort(key=lambda item: item["id"])` (src/app.py line
726): a stable ascending sort by id.  Task ids are distinct in every
batch, so any correct sort produces the list the source produces. -/
def sortById : List ReviewRec → List ReviewRec
  | [] => []
  | x :: xs => insertById x (sortById xs)

theorem length_insertById (r : ReviewRec) (l : List ReviewRec) :
    (insertById r l).length = l.length + 1 := by
  induction l with
  | nil => rfl
  | cons x xs ih =>
    simp only [insertById]
    split_ifs <;> simp [ih]

theorem mem_insertById (r b : ReviewRec) (l : List ReviewRec) :
    b ∈ insertById r l ↔ b = r ∨ b ∈ l := by
  induction l with
  | nil => simp [insertById]
  | cons x xs ih =>
    simp only [insertById]
    split_ifs <;> simp [ih] <;> tauto

theorem sorted_insertById (r : ReviewRec) (l : List ReviewRec)
    (h : l.Pairwise (fun a b => a.id ≤ b.id)) :
    (insertById r l).Pairwise (fun a b => a.id ≤ b.id) := by
  induction l with
  | nil => simp [insertById]
  | cons x xs ih =>
    rw [List.pairwise_cons] at h
    obtain ⟨hx, hxs⟩ := h
    simp only [insertById]
    split_ifs with hle
    · rw [List.pairwise_cons]
      refine ⟨?_, by rw [List.pairwise_cons]; exact ⟨hx, hxs⟩⟩
      intro b hb
      rcases List.mem_cons.mp hb with hbx | hbxs
      · subst hbx; exact hle
      · exact le_trans hle (hx b hbxs)
    · rw [List.pairwise_cons]
      refine ⟨?_, ih hxs⟩
      intro b hb
      rcases (mem_insertById r b xs).mp hb with hbr | hbxs
      · subst hbr; omega
      · exact hx b hbxs

theorem sorted_sortById (l : List ReviewRec) :
    (sortById l).Pairwise (fun a b => a.id ≤ b.id) := by
  induction l with
  | nil => simp [sortById]
  | cons x xs ih => exact sorted_insertById x (sortById xs) ih

theorem length_sortById (l : List ReviewRec) :
    (sortById l).length = l.length := by
  induction l with
  | nil => rfl
  | cons x xs ih => simp [sortById, length_insertById, ih]

/-- The successful-batch response body (src/app.py lines 759-768). -/
structure LiveResult where
  inputText : String
  numReviews : Nat
  reviews : List ReviewRec
  successCount : Nat
  errorCount : Nat
  errors : Option (List String)
  glows : List String
  grows : List String
deriving DecidableEq

/-- The all-tasks-failed fallback response body (src/app.py lines
734-746). -/
structure FallbackResult where
  error : String
  fallback : List FallbackRec
  message : String
  details : List String
  glows : List String
  grows : List String
deriving DecidableEq

/-- The `/generate` response together with its HTTP status. -/
inductive GenResponse where
  | live (r : LiveResult) (status : Nat)
  | fb (r : FallbackResult) (status : Nat)
deriving DecidableEq

/-- Embedding of the `/generate` route tail after the per-task futures
resolve (src/app.py lines 704-771): collect results in completion order,
sort ascending by id, return the fallback payload with status 500 when no
review succeeded, otherwise the summary plus the live payload whose
successCount is the review-list length. -/
def generate_tail (cfg : GenConfig) (text : String) (num_reviews : Nat)
    (chars : List String) (completed : List (Nat × FutureRes))
    (fbSeeds : Nat → FbSeeds) (summaryApi : ApiOutcome) : GenResponse :=
  let collected := collectResults completed
  let reviews := sortById collected.1
  let errors := collected.2
  if reviews = [] then
    let fb := build_fallback_personas text (Int.ofNat num_reviews) chars fbSeeds
    .fb { error := "No responses generated", fallback := fb.1, message := fb.2,
          details := errors, glows := [], grows := [] } 500
  else
    let s := generate_feedback_summary cfg reviews summaryApi
    .live { inputText := text, numReviews := num_reviews, reviews := reviews,
            successCount := reviews.length, errorCount := errors.length,
            errors := if errors = [] then Option.none else some errors,
            glows := s.glows, grows := s.grows } 200

theorem collect_ne_nil (completed : List (Nat × FutureRes))
    (h : ∃ p ∈ completed, isSuccessFR p.2 = true) :
    (collectResults completed).1 ≠ [] := by
  induction completed with
  | nil => simp at h
  | cons hd tl ih =>
    obtain ⟨tid, fr⟩ := hd
    have htl : (∃ p ∈ tl, isSuccessFR p.2 = true) → (collectResults tl).1 ≠ [] := ih
    simp only [collectResults]
    cases fr with
    | ok rev e =>
      cases rev with
      | some rv => simp
      | none =>
        have h' : ∃ p ∈ tl, isSuccessFR p.2 = true := by
          obtain ⟨p, hp, hs⟩ := h
          rcases List.mem_cons.mp hp with heq | hmem
          · subst heq; simp [isSuccessFR] at hs
          · exact ⟨p, hmem, hs⟩
        cases e with
        | some e0 => simpa using htl h'
        | none => simpa using htl h'
    | exn m =>
      have h' : ∃ p ∈ tl, isSuccessFR p.2 = true := by
        obtain ⟨p, hp, hs⟩ := h
        rcases List.mem_cons.mp hp with heq | hmem
        · subst heq; simp [isSuccessFR] at hs
        · exact ⟨p, hmem, hs⟩
      simpa using htl h'

theorem collect_nil_of_all_fail (completed : List (Nat × FutureRes))
    (h : ∀ p ∈ completed, isSuccessFR p.2 = false) :
    (collectResults completed).1 = [] := by
  induction completed with
  | nil => rfl
  | cons hd tl ih =>
    obtain ⟨tid, fr⟩ := hd
    have htl : (collectResults tl).1 = [] := by
      apply ih
      intro p hp
      exact h p (List.mem_cons_of_mem _ hp)
    have hhd := h (tid, fr) (List.mem_cons_self _ _)
    simp only [collectResults]
    cases fr with
    | ok rev e =>
      cases rev with
      | some rv => simp [isSuccessFR] at hhd
      | none =>
        cases e with
        | some e0 => simpa using htl
        | none => simpa using htl
    | exn m => simpa using htl

/-- C1: whenever at least one task of a batch succeeds, the `/generate`
response is the live payload with status 200, its successCount equals the
length of its review list, and that list is sorted in ascending id order —
for every completion order of the concurrent tasks. -/
theorem claim_C1_sorted_reviews (cfg : GenConfig) (text : String)
    (num : Nat) (chars : List String) (completed : List (Nat × FutureRes))
    (fbSeeds : Nat → FbSeeds) (sApi : ApiOutcome)
    (h : ∃ p ∈ completed, isSuccessFR p.2 = true) :
    ∃ L, generate_tail cfg text num chars completed fbSeeds sApi = .live L 200 ∧
      L.successCount = L.reviews.length ∧
      L.reviews.Pairwise (fun a b => a.id ≤ b.id) := by
  have hne : (collectResults completed).1 ≠ [] := collect_ne_nil completed h
  have hsne : sortById (collectResults completed).1 ≠ [] := by
    intro hcontra
    apply hne
    have hlen := congrArg List.length hcontra
    rw [length_sortById] at hlen
    simpa using List.length_eq_zero.mp (by simpa using hlen)
  simp only [generate_tail]
  rw [if_neg hsne]
  exact ⟨_, rfl, rfl, sorted_sortById _⟩

/-- C3: when every task of a batch fails — so the successful-review list
is empty after all futures resolve — the `/generate` response is not an
empty success body but the fallback payload with status 500: the Fallback
Persona Builder's records, the simulated-mode message, and the per-task
error details. -/
theorem claim_C3_batch_exhaustion (cfg : GenConfig) (text : String)
    (num : Nat) (chars : List String) (completed : List (Nat × FutureRes))
    (fbSeeds : Nat → FbSeeds) (sApi : ApiOutcome)
    (h : ∀ p ∈ completed, isSuccessFR p.2 = false) :
    generate_tail cfg text num chars completed fbSeeds sApi =
      .fb { error := "No responses generated",
            fallback := (build_fallback_personas text (Int.ofNat num) chars fbSeeds).1,
            message := "Using simulated persona insights (offline mode).",
            details := (collectResults completed).2,
            glows := [], grows := [] } 500 := by
  have hnil : (collectResults completed).1 = [] := collect_nil_of_all_fail completed h
  simp only [generate_tail, hnil]
  rfl

/-- A minimal concrete metadata record for dispatcher witnesses. -/
def mdPlain : Metadata :=
  { persona_name := "Pat Doe, 30",
    persona_descriptor := "Moderately analytical customer persona",
    characteristics := ["analytical"],
    characteristic_intensities := [],
    sentiment_rating := 7,
    personality_description := "Moderately analytical customer persona",
    age_range := Option.none,
    age := some 30,
    gender := Option.none,
    location := Option.none,
    profession := Option.none,
    tone := Option.none,
    motivations := Option.none,
    traits_summary := "moderately analytical",
    source_documents_used := false,
    review_summary := Option.none }

/-- The live payload of a response, when it is one. -/
def responseLive : GenResponse → Option LiveResult
  | .live L _ => some L
  | _ => Option.none

/-- Error text, message, error details and status of a fallback response,
when it is one. -/
def responseFbParts : GenResponse → Option (String × String × List String × Nat)
  | .fb r s => some (r.error, r.message, r.details, s)
  | _ => Option.none

/-- C1 witness: the theorem applied to a concrete batch of three tasks
completing out of order (2 before 1, 3 failing); the response holds ids
[1, 2] ascending and successCount 2. -/
theorem claim_C1_witness :
    (responseLive (generate_tail ⟨true, true⟩ "idea" 3 ["analytical"]
      [(2, FutureRes.ok (some ⟨"Good.", mdPlain⟩) Option.none),
       (1, FutureRes.ok (some ⟨"Nice.", mdPlain⟩) Option.none),
       (3, FutureRes.exn "boom")]
      (fun _ => ⟨0, 0, 0⟩) (.raised "net"))).map
      (fun L => (L.successCount, L.reviews.map (fun r => r.id))) =
      some (2, [1, 2]) := by
  have h := claim_C1_sorted_reviews ⟨true, true⟩ "idea" 3 ["analytical"]
    [(2, FutureRes.ok (some ⟨"Good.", mdPlain⟩) Option.none),
     (1, FutureRes.ok (some ⟨"Nice.", mdPlain⟩) Option.none),
     (3, FutureRes.exn "boom")]
    (fun _ => ⟨0, 0, 0⟩) (.raised "net")
    ⟨(2, FutureRes.ok (some ⟨"Good.", mdPlain⟩) Option.none), by simp,
      by decide⟩
  decide

/-- C3 witness: the exhaustion theorem applied to a concrete batch whose
two tasks both fail; the response carries the fallback marker, the
simulated-mode message and both per-task error details. -/
theorem claim_C3_witness :
    (responseFbParts (generate_tail ⟨true, true⟩ "tea box" 2 ["analytical"]
      [(1, FutureRes.exn "boom"),
       (2, FutureRes.ok Option.none (some "Gemini error: x"))]
      (fun _ => ⟨0, 0, 0⟩) (.ok ""))) =
      some ("No responses generated",
        "Using simulated persona insights (offline mode).",
        ["Persona 1: boom", "Persona 2: Gemini error: x"], 500) := by
  have h := claim_C3_batch_exhaustion ⟨true, true⟩ "tea box" 2 ["analytical"]
    [(1, FutureRes.exn "boom"),
     (2, FutureRes.ok Option.none (some "Gemini error: x"))]
    (fun _ => ⟨0, 0, 0⟩) (.ok "") (by decide)
  rw [h]
  decide
